import Mathlib

/-!
Shallow embedding of the `Symbol` value type of `src/disasm/src/symbol.rs`
from the cargo-disasm repository, together with proofs of the specified
properties of its construction pipeline, accessors and owned conversion.

The two demanglers (`rustc_demangle::try_demangle` and
`cpp_demangle::Symbol::new`) are external collaborator crates; the spec
treats them as black boxes ("try demangle; return rendered form or
reject"), so the embedding is parameterized over two abstract functions
of type `String → Option String` standing for "demangle attempt yielding
the rendered form on success".
-/

namespace CargoDisasm

/-- Modulus of the machine-word type `usize` on the 64-bit targets the
crate compiles for; `Symbol::end` adds two `usize` values. -/
def UWORD : Nat := 2 ^ 64

/-- Embedding of `std::borrow::Cow<'data, str>`: a name string is either
borrowed from an upstream buffer or owned. -/
inductive Cow where
  | borrowed (s : String)
  | owned (s : String)
deriving DecidableEq, Repr

/-- Dereferencing a `Cow<'data, str>` to its `str` contents. -/
def Cow.str : Cow → String
  | .borrowed s => s
  | .owned s => s

/-- Embedding of `Cow::into_owned`: the borrowed string is cloned, the
owned string is returned as is; at the value level both give the
contents. -/
def Cow.intoOwned : Cow → String
  | .borrowed s => s
  | .owned s => s

/-- The `SymbolType` enumeration of `symbol.rs`. -/
inductive SymbolType where
  | Function
  | Static
deriving DecidableEq, Repr

/-- Rendering of `SymbolType` (its `fmt::Display` implementation). -/
def SymbolType.display : SymbolType → String
  | .Function => "function"
  | .Static => "static"

/-- The `SymbolLang` enumeration of `symbol.rs`. -/
inductive SymbolLang where
  | Rust
  | Cpp
  | C
  | Unknown
deriving DecidableEq, Repr

/-- Rendering of `SymbolLang` (its `fmt::Display` implementation). -/
def SymbolLang.display : SymbolLang → String
  | .Rust => "Rust"
  | .Cpp => "C++"
  | .C => "C"
  | .Unknown => "unknown"

/-- `SymbolLang::update`: update the language if it is unknown.  The Rust
method mutates `&mut self`; the embedding returns the new value. -/
def SymbolLang.update (l new_lang : SymbolLang) : SymbolLang :=
  if l = SymbolLang.Unknown then new_lang else l

/-- The `SymbolSource` enumeration of `symbol.rs`. -/
inductive SymbolSource where
  | Object
  | Dwarf
  | PDB
deriving DecidableEq, Repr

/-- Rendering of `SymbolSource` (its `fmt::Display` implementation). -/
def SymbolSource.display : SymbolSource → String
  | .Object => "object"
  | .Dwarf => "DWARF"
  | .PDB => "PDB"

/-- The `Symbol<'data>` struct: field for field as in `symbol.rs`.
`addr` is a `u64` and `bpos`, `blen` are `usize` values, embedded as
`Nat`; the only arithmetic performed on them is in `Symbol.end_`. -/
structure Symbol where
  name : Cow
  addr : Nat
  bpos : Nat
  blen : Nat
  lang : SymbolLang
  source : SymbolSource
  type_ : SymbolType
deriving DecidableEq, Repr

/-- `Symbol::new`: the construction pipeline.  `try_demangle` stands for
the language-A (Rust) demangler composed with its rendering, and
`cpp_demangle` for the language-B (C++) demangler
(`CppSymbol::new(name.as_bytes()).map(|s| s.to_string())`); both are
black-box collaborators.  The pipeline tries language A on the name, on
failure language B on the same bytes, and on failure keeps the raw name;
a successful attempt stores the rendered form as a fresh owned string and
promotes `lang` through `SymbolLang.update`. -/
def Symbol.new (try_demangle : String → Option String)
    (cpp_demangle : String → Option String)
    (name : Cow) (addr : Nat) (bpos : Nat) (blen : Nat)
    (type_ : SymbolType) (source : SymbolSource) (lang : SymbolLang) :
    Symbol :=
  match try_demangle name.str with
  | some n =>
      { name := Cow.owned n, addr := addr, bpos := bpos, blen := blen,
        lang := lang.update SymbolLang.Rust, source := source,
        type_ := type_ }
  | none =>
      match cpp_demangle name.str with
      | some n =>
          { name := Cow.owned n, addr := addr, bpos := bpos,
            blen := blen, lang := lang.update SymbolLang.Cpp,
            source := source, type_ := type_ }
      | none =>
          { name := name, addr := addr, bpos := bpos, blen := blen,
            lang := lang, source := source, type_ := type_ }

/-- Accessor `Symbol::address`. -/
def Symbol.address (s : Symbol) : Nat := s.addr

/-- Accessor `Symbol::offset`. -/
def Symbol.offset (s : Symbol) : Nat := s.bpos

/-- Accessor `Symbol::end`: `self.bpos + self.blen` on `usize`, so the
machine addition is embedded with its wrap-around modulus.  (`end` is a
keyword in Lean, hence the trailing underscore.) -/
def Symbol.end_ (s : Symbol) : Nat := (s.bpos + s.blen) % UWORD

/-- Accessor `Symbol::size`. -/
def Symbol.size (s : Symbol) : Nat := s.blen

/-- Accessor `Symbol::name`, which dereferences the `Cow` to `&str`. -/
def Symbol.nameStr (s : Symbol) : String := s.name.str

/-- `Symbol::owned`: converts into a static owned symbol by
`Cow::from(self.name.into_owned())`, copying every other field. -/
def Symbol.owned (s : Symbol) : Symbol :=
  { name := Cow.owned s.name.intoOwned, addr := s.addr, bpos := s.bpos,
    blen := s.blen, lang := s.lang, source := s.source,
    type_ := s.type_ }

/-- The equality `derive(PartialEq, Eq)` places on `Symbol`: field-wise
comparison, where the `name` field of type `Cow<'data, str>` compares by
its dereferenced `str` contents (the `PartialEq` of `std::borrow::Cow`). -/
def Symbol.beq (a b : Symbol) : Bool :=
  decide (a.name.str = b.name.str) && decide (a.addr = b.addr) &&
  decide (a.bpos = b.bpos) && decide (a.blen = b.blen) &&
  decide (a.lang = b.lang) && decide (a.source = b.source) &&
  decide (a.type_ = b.type_)

/-- Concrete stand-in for the language-A (Rust) demangler, used by the
witness theorems: accepts exactly the mangled name `_RNvC1a3foo`. -/
def rdStub : String → Option String :=
  fun s => if s = "_RNvC1a3foo" then some "a::foo" else none

/-- Concrete stand-in for the language-B (C++) demangler, used by the
witness theorems: accepts exactly the mangled name `_ZN3foo3barEv`. -/
def cdStub : String → Option String :=
  fun s => if s = "_ZN3foo3barEv" then some "foo::bar()" else none

/-- The field values of `Symbol.new` other than `name` and `lang` are the
constructor inputs, whatever the demanglers do. -/
theorem Symbol.new_fields (td cd : String → Option String) (name : Cow)
    (addr bpos blen : Nat) (type_ : SymbolType) (source : SymbolSource)
    (lang : SymbolLang) :
    (Symbol.new td cd name addr bpos blen type_ source lang).addr = addr ∧
    (Symbol.new td cd name addr bpos blen type_ source lang).bpos = bpos ∧
    (Symbol.new td cd name addr bpos blen type_ source lang).blen = blen ∧
    (Symbol.new td cd name addr bpos blen type_ source lang).type_ = type_ ∧
    (Symbol.new td cd name addr bpos blen type_ source lang).source = source := by
  unfold Symbol.new
  cases td name.str <;> [skip; exact ⟨rfl, rfl, rfl, rfl, rfl⟩]
  cases cd name.str <;> exact ⟨rfl, rfl, rfl, rfl, rfl⟩

/-- At the value level, `Cow::into_owned` returns the dereferenced
contents, whichever variant holds them. -/
theorem Cow.intoOwned_eq_str (c : Cow) : c.intoOwned = c.str := by
  cases c <;> rfl

/-- The stub language-A demangler renders only non-empty names. -/
theorem rdStub_nonempty : ∀ s r, rdStub s = some r → r ≠ "" := by
  intro s r h
  unfold rdStub at h
  split at h
  · cases h
    decide
  · exact Option.noConfusion h

/-- The stub language-B demangler renders only non-empty names. -/
theorem cdStub_nonempty : ∀ s r, cdStub s = some r → r ≠ "" := by
  intro s r h
  unfold cdStub at h
  split at h
  · cases h
    decide
  · exact Option.noConfusion h

/-- C1: if the language-A (Rust) demangler accepts the input name, the
stored name equals its rendering, a caller-supplied `Unknown` lang
becomes `Rust`, and the language-B demangler is not consulted (the
result does not depend on it). -/
theorem new_rust_precedence (td cd cd2 : String → Option String)
    (name : Cow) (addr bpos blen : Nat) (type_ : SymbolType)
    (source : SymbolSource) (lang : SymbolLang) (r : String)
    (h : td name.str = some r) :
    (Symbol.new td cd name addr bpos blen type_ source lang).nameStr = r ∧
    (Symbol.new td cd name addr bpos blen type_ source
      SymbolLang.Unknown).lang = SymbolLang.Rust ∧
    Symbol.new td cd name addr bpos blen type_ source lang =
      Symbol.new td cd2 name addr bpos blen type_ source lang := by
  unfold Symbol.new
  rw [h]
  exact ⟨rfl, rfl, rfl⟩

/-- Witness for C1 at the mangled Rust name of spec scenario B. -/
theorem new_rust_precedence_witness :
    rdStub "_RNvC1a3foo" = some "a::foo" ∧
    ((Symbol.new rdStub cdStub (Cow.borrowed "_RNvC1a3foo") 4096 16 4
        SymbolType.Function SymbolSource.Object
        SymbolLang.Unknown).nameStr = "a::foo" ∧
      (Symbol.new rdStub cdStub (Cow.borrowed "_RNvC1a3foo") 4096 16 4
        SymbolType.Function SymbolSource.Object
        SymbolLang.Unknown).lang = SymbolLang.Rust ∧
      Symbol.new rdStub cdStub (Cow.borrowed "_RNvC1a3foo") 4096 16 4
        SymbolType.Function SymbolSource.Object SymbolLang.Unknown =
        Symbol.new rdStub (fun _ => none) (Cow.borrowed "_RNvC1a3foo")
          4096 16 4 SymbolType.Function SymbolSource.Object
          SymbolLang.Unknown) :=
  ⟨by decide,
    new_rust_precedence rdStub cdStub (fun _ => none)
      (Cow.borrowed "_RNvC1a3foo") 4096 16 4 SymbolType.Function
      SymbolSource.Object SymbolLang.Unknown "a::foo" (by decide)⟩

/-- C2: if the language-A demangler rejects but the language-B (C++)
demangler accepts, the stored name equals the language-B rendering and a
caller-supplied `Unknown` lang becomes `Cpp`. -/
theorem new_cpp_fallback (td cd : String → Option String) (name : Cow)
    (addr bpos blen : Nat) (type_ : SymbolType) (source : SymbolSource)
    (lang : SymbolLang) (c : String)
    (h1 : td name.str = none) (h2 : cd name.str = some c) :
    (Symbol.new td cd name addr bpos blen type_ source lang).nameStr = c ∧
    (Symbol.new td cd name addr bpos blen type_ source
      SymbolLang.Unknown).lang = SymbolLang.Cpp := by
  unfold Symbol.new
  rw [h1, h2]
  exact ⟨rfl, rfl⟩

/-- Witness for C2 at the mangled C++ name of spec scenario A. -/
theorem new_cpp_fallback_witness :
    rdStub "_ZN3foo3barEv" = none ∧
    cdStub "_ZN3foo3barEv" = some "foo::bar()" ∧
    ((Symbol.new rdStub cdStub (Cow.borrowed "_ZN3foo3barEv") 4096 16 4
        SymbolType.Function SymbolSource.Object
        SymbolLang.Unknown).nameStr = "foo::bar()" ∧
      (Symbol.new rdStub cdStub (Cow.borrowed "_ZN3foo3barEv") 4096 16 4
        SymbolType.Function SymbolSource.Object
        SymbolLang.Unknown).lang = SymbolLang.Cpp) :=
  ⟨by decide, by decide,
    new_cpp_fallback rdStub cdStub (Cow.borrowed "_ZN3foo3barEv") 4096 16
      4 SymbolType.Function SymbolSource.Object SymbolLang.Unknown
      "foo::bar()" (by decide) (by decide)⟩

/-- C3: if both demanglers reject, the stored name is the caller's name
verbatim (the very same `Cow`, hence the same string) and the lang is the
caller's lang; the constructor is total, so no failure reaches the
caller. -/
theorem new_passthrough (td cd : String → Option String) (name : Cow)
    (addr bpos blen : Nat) (type_ : SymbolType) (source : SymbolSource)
    (lang : SymbolLang)
    (h1 : td name.str = none) (h2 : cd name.str = none) :
    (Symbol.new td cd name addr bpos blen type_ source lang).name = name ∧
    (Symbol.new td cd name addr bpos blen type_ source lang).nameStr =
      name.str ∧
    (Symbol.new td cd name addr bpos blen type_ source lang).lang = lang := by
  unfold Symbol.new
  rw [h1, h2]
  exact ⟨rfl, rfl, rfl⟩

/-- Witness for C3 at the unmangled name of spec scenario E. -/
theorem new_passthrough_witness :
    rdStub "junk$$$" = none ∧ cdStub "junk$$$" = none ∧
    ((Symbol.new rdStub cdStub (Cow.borrowed "junk$$$") 4096 16 4
        SymbolType.Function SymbolSource.Object SymbolLang.Unknown).name =
        Cow.borrowed "junk$$$" ∧
      (Symbol.new rdStub cdStub (Cow.borrowed "junk$$$") 4096 16 4
        SymbolType.Function SymbolSource.Object
        SymbolLang.Unknown).nameStr = (Cow.borrowed "junk$$$").str ∧
      (Symbol.new rdStub cdStub (Cow.borrowed "junk$$$") 4096 16 4
        SymbolType.Function SymbolSource.Object
        SymbolLang.Unknown).lang = SymbolLang.Unknown) :=
  ⟨by decide, by decide,
    new_passthrough rdStub cdStub (Cow.borrowed "junk$$$") 4096 16 4
      SymbolType.Function SymbolSource.Object SymbolLang.Unknown
      (by decide) (by decide)⟩

/-- C4: a caller-supplied lang other than `Unknown` is the final lang,
whatever either demangler does. -/
theorem new_caller_lang_wins (td cd : String → Option String)
    (name : Cow) (addr bpos blen : Nat) (type_ : SymbolType)
    (source : SymbolSource) (lang : SymbolLang)
    (h : lang ≠ SymbolLang.Unknown) :
    (Symbol.new td cd name addr bpos blen type_ source lang).lang = lang := by
  unfold Symbol.new
  cases td name.str with
  | some n => simp [SymbolLang.update, h]
  | none =>
      cases cd name.str with
      | some n => simp [SymbolLang.update, h]
      | none => rfl

/-- Witness for C4 at spec scenario D: a C++-mangled name with caller
lang `C`; the caller's lang survives the successful demangle. -/
theorem new_caller_lang_wins_witness :
    SymbolLang.C ≠ SymbolLang.Unknown ∧
    (Symbol.new rdStub cdStub (Cow.borrowed "_ZN3foo3barEv") 4096 16 4
      SymbolType.Function SymbolSource.Object SymbolLang.C).lang =
      SymbolLang.C :=
  ⟨by decide,
    new_caller_lang_wins rdStub cdStub (Cow.borrowed "_ZN3foo3barEv")
      4096 16 4 SymbolType.Function SymbolSource.Object SymbolLang.C
      (by decide)⟩

/-- C5: the `SymbolLang::update` rule: a non-Unknown current language is
kept and an Unknown one is replaced by the incoming language. -/
theorem update_spec (l i : SymbolLang) (h : l ≠ SymbolLang.Unknown) :
    l.update i = l ∧ SymbolLang.Unknown.update i = i := by
  exact ⟨by simp [SymbolLang.update, h], by simp [SymbolLang.update]⟩

/-- Witness for C5 at `l = Rust`, `i = Cpp`. -/
theorem update_spec_witness :
    SymbolLang.Rust ≠ SymbolLang.Unknown ∧
    (SymbolLang.Rust.update SymbolLang.Cpp = SymbolLang.Rust ∧
      SymbolLang.Unknown.update SymbolLang.Cpp = SymbolLang.Cpp) :=
  ⟨by decide, update_spec SymbolLang.Rust SymbolLang.Cpp (by decide)⟩

/-- C6: accessor consistency: for a symbol built from well-formed inputs
(`bpos + blen` fits the machine word, the caller precondition of the
spec), `end() = offset() + size()`, and `address`, `offset`, `size`,
`type_`, `source` return the corresponding constructor inputs. -/
theorem new_accessor_consistency (td cd : String → Option String)
    (name : Cow) (addr bpos blen : Nat) (type_ : SymbolType)
    (source : SymbolSource) (lang : SymbolLang)
    (h : bpos + blen < UWORD) :
    (Symbol.new td cd name addr bpos blen type_ source lang).end_ =
      (Symbol.new td cd name addr bpos blen type_ source lang).offset +
      (Symbol.new td cd name addr bpos blen type_ source lang).size ∧
    (Symbol.new td cd name addr bpos blen type_ source lang).address =
      addr ∧
    (Symbol.new td cd name addr bpos blen type_ source lang).offset =
      bpos ∧
    (Symbol.new td cd name addr bpos blen type_ source lang).size =
      blen ∧
    (Symbol.new td cd name addr bpos blen type_ source lang).type_ =
      type_ ∧
    (Symbol.new td cd name addr bpos blen type_ source lang).source =
      source := by
  obtain ⟨ha, hb, hl, ht, hs⟩ :=
    Symbol.new_fields td cd name addr bpos blen type_ source lang
  simp [Symbol.end_, Symbol.offset, Symbol.size, Symbol.address, ha, hb,
    hl, ht, hs, Nat.mod_eq_of_lt h]

/-- Witness for C6 at spec scenario F: `addr = 0x1000`, `bpos = 16`,
`blen = 4`. -/
theorem new_accessor_consistency_witness :
    16 + 4 < UWORD ∧
    ((Symbol.new rdStub cdStub (Cow.borrowed "x") 4096 16 4
        SymbolType.Function SymbolSource.Object SymbolLang.Unknown).end_ =
        (Symbol.new rdStub cdStub (Cow.borrowed "x") 4096 16 4
          SymbolType.Function SymbolSource.Object
          SymbolLang.Unknown).offset +
        (Symbol.new rdStub cdStub (Cow.borrowed "x") 4096 16 4
          SymbolType.Function SymbolSource.Object
          SymbolLang.Unknown).size ∧
      (Symbol.new rdStub cdStub (Cow.borrowed "x") 4096 16 4
        SymbolType.Function SymbolSource.Object
        SymbolLang.Unknown).address = 4096 ∧
      (Symbol.new rdStub cdStub (Cow.borrowed "x") 4096 16 4
        SymbolType.Function SymbolSource.Object
        SymbolLang.Unknown).offset = 16 ∧
      (Symbol.new rdStub cdStub (Cow.borrowed "x") 4096 16 4
        SymbolType.Function SymbolSource.Object
        SymbolLang.Unknown).size = 4 ∧
      (Symbol.new rdStub cdStub (Cow.borrowed "x") 4096 16 4
        SymbolType.Function SymbolSource.Object
        SymbolLang.Unknown).type_ = SymbolType.Function ∧
      (Symbol.new rdStub cdStub (Cow.borrowed "x") 4096 16 4
        SymbolType.Function SymbolSource.Object
        SymbolLang.Unknown).source = SymbolSource.Object) :=
  ⟨by decide,
    new_accessor_consistency rdStub cdStub (Cow.borrowed "x") 4096 16 4
      SymbolType.Function SymbolSource.Object SymbolLang.Unknown
      (by decide)⟩

/-- C7: under the caller precondition that `bpos + blen` fits the
machine word, `end()` computes the exact sum (no wrap-around) and
`end() ≥ offset()`. -/
theorem end_no_overflow (s : Symbol) (h : s.bpos + s.blen < UWORD) :
    s.end_ = s.bpos + s.blen ∧ s.offset ≤ s.end_ := by
  have he : s.end_ = s.bpos + s.blen := Nat.mod_eq_of_lt h
  refine ⟨he, ?_⟩
  rw [he]
  exact Nat.le_add_right s.bpos s.blen

/-- Witness for C7 at a concrete symbol with `bpos = 16`, `blen = 4`. -/
theorem end_no_overflow_witness :
    (Symbol.mk (Cow.borrowed "x") 4096 16 4 SymbolLang.Unknown
        SymbolSource.Object SymbolType.Function).bpos +
      (Symbol.mk (Cow.borrowed "x") 4096 16 4 SymbolLang.Unknown
        SymbolSource.Object SymbolType.Function).blen < UWORD ∧
    ((Symbol.mk (Cow.borrowed "x") 4096 16 4 SymbolLang.Unknown
        SymbolSource.Object SymbolType.Function).end_ =
      (Symbol.mk (Cow.borrowed "x") 4096 16 4 SymbolLang.Unknown
        SymbolSource.Object SymbolType.Function).bpos +
      (Symbol.mk (Cow.borrowed "x") 4096 16 4 SymbolLang.Unknown
        SymbolSource.Object SymbolType.Function).blen ∧
      (Symbol.mk (Cow.borrowed "x") 4096 16 4 SymbolLang.Unknown
        SymbolSource.Object SymbolType.Function).offset ≤
      (Symbol.mk (Cow.borrowed "x") 4096 16 4 SymbolLang.Unknown
        SymbolSource.Object SymbolType.Function).end_) :=
  ⟨by decide,
    end_no_overflow
      (Symbol.mk (Cow.borrowed "x") 4096 16 4 SymbolLang.Unknown
        SymbolSource.Object SymbolType.Function) (by decide)⟩

/-- C8: for a borrowed-name symbol, `owned()` agrees with the original
on every accessor; only the name storage changes, from borrowed to a
fresh owned string with the same contents. -/
theorem owned_severance (s : Symbol) (n : String)
    (h : s.name = Cow.borrowed n) :
    s.owned.nameStr = s.nameStr ∧ s.owned.address = s.address ∧
    s.owned.offset = s.offset ∧ s.owned.end_ = s.end_ ∧
    s.owned.size = s.size ∧ s.owned.type_ = s.type_ ∧
    s.owned.source = s.source ∧ s.owned.lang = s.lang ∧
    s.owned.name = Cow.owned n := by
  refine ⟨?_, rfl, rfl, rfl, rfl, rfl, rfl, rfl, ?_⟩
  · simp [Symbol.nameStr, Symbol.owned, Cow.intoOwned_eq_str, Cow.str]
  · simp [Symbol.owned, h, Cow.intoOwned]

/-- Witness for C8 at a concrete borrowed-name symbol. -/
theorem owned_severance_witness :
    (Symbol.mk (Cow.borrowed "x") 4096 16 4 SymbolLang.Unknown
        SymbolSource.Object SymbolType.Function).name =
      Cow.borrowed "x" ∧
    ((Symbol.mk (Cow.borrowed "x") 4096 16 4 SymbolLang.Unknown
        SymbolSource.Object SymbolType.Function).owned.nameStr =
      (Symbol.mk (Cow.borrowed "x") 4096 16 4 SymbolLang.Unknown
        SymbolSource.Object SymbolType.Function).nameStr ∧
      (Symbol.mk (Cow.borrowed "x") 4096 16 4 SymbolLang.Unknown
        SymbolSource.Object SymbolType.Function).owned.address =
      (Symbol.mk (Cow.borrowed "x") 4096 16 4 SymbolLang.Unknown
        SymbolSource.Object SymbolType.Function).address ∧
      (Symbol.mk (Cow.borrowed "x") 4096 16 4 SymbolLang.Unknown
        SymbolSource.Object SymbolType.Function).owned.offset =
      (Symbol.mk (Cow.borrowed "x") 4096 16 4 SymbolLang.Unknown
        SymbolSource.Object SymbolType.Function).offset ∧
      (Symbol.mk (Cow.borrowed "x") 4096 16 4 SymbolLang.Unknown
        SymbolSource.Object SymbolType.Function).owned.end_ =
      (Symbol.mk (Cow.borrowed "x") 4096 16 4 SymbolLang.Unknown
        SymbolSource.Object SymbolType.Function).end_ ∧
      (Symbol.mk (Cow.borrowed "x") 4096 16 4 SymbolLang.Unknown
        SymbolSource.Object SymbolType.Function).owned.size =
      (Symbol.mk (Cow.borrowed "x") 4096 16 4 SymbolLang.Unknown
        SymbolSource.Object SymbolType.Function).size ∧
      (Symbol.mk (Cow.borrowed "x") 4096 16 4 SymbolLang.Unknown
        SymbolSource.Object SymbolType.Function).owned.type_ =
      (Symbol.mk (Cow.borrowed "x") 4096 16 4 SymbolLang.Unknown
        SymbolSource.Object SymbolType.Function).type_ ∧
      (Symbol.mk (Cow.borrowed "x") 4096 16 4 SymbolLang.Unknown
        SymbolSource.Object SymbolType.Function).owned.source =
      (Symbol.mk (Cow.borrowed "x") 4096 16 4 SymbolLang.Unknown
        SymbolSource.Object SymbolType.Function).source ∧
      (Symbol.mk (Cow.borrowed "x") 4096 16 4 SymbolLang.Unknown
        SymbolSource.Object SymbolType.Function).owned.lang =
      (Symbol.mk (Cow.borrowed "x") 4096 16 4 SymbolLang.Unknown
        SymbolSource.Object SymbolType.Function).lang ∧
      (Symbol.mk (Cow.borrowed "x") 4096 16 4 SymbolLang.Unknown
        SymbolSource.Object SymbolType.Function).owned.name =
      Cow.owned "x") :=
  ⟨rfl,
    owned_severance
      (Symbol.mk (Cow.borrowed "x") 4096 16 4 SymbolLang.Unknown
        SymbolSource.Object SymbolType.Function) "x" rfl⟩

/-- C9: the pipeline never introduces an empty name: with demangler
collaborators whose successful renderings are non-empty, a non-empty
input name yields a non-empty stored name (so an empty stored name can
only come from an empty caller-supplied name). -/
theorem new_nonempty (td cd : String → Option String) (name : Cow)
    (addr bpos blen : Nat) (type_ : SymbolType) (source : SymbolSource)
    (lang : SymbolLang)
    (hr : ∀ s r, td s = some r → r ≠ "")
    (hc : ∀ s r, cd s = some r → r ≠ "")
    (h : name.str ≠ "") :
    (Symbol.new td cd name addr bpos blen type_ source lang).nameStr ≠
      "" := by
  unfold Symbol.new
  cases htd : td name.str with
  | some n => exact hr name.str n htd
  | none =>
      cases hcd : cd name.str with
      | some n => exact hc name.str n hcd
      | none => exact h

/-- Witness for C9 at the non-empty unmangled name of spec scenario C. -/
theorem new_nonempty_witness :
    (Cow.borrowed "plain_symbol").str ≠ "" ∧
    (Symbol.new rdStub cdStub (Cow.borrowed "plain_symbol") 4096 16 4
      SymbolType.Function SymbolSource.Object SymbolLang.C).nameStr ≠
      "" :=
  ⟨by decide,
    new_nonempty rdStub cdStub (Cow.borrowed "plain_symbol") 4096 16 4
      SymbolType.Function SymbolSource.Object SymbolLang.C
      rdStub_nonempty cdStub_nonempty (by decide)⟩

/-- C10: the derived `Symbol` equality is field-wise over the seven
fields (the `Cow` name comparing by its string contents); consequently
`owned()` yields a symbol equal to the original as a whole value, and
`owned()` is idempotent. -/
theorem symbol_eq_structural (a b : Symbol) :
    (Symbol.beq a b = true ↔
      (a.name.str = b.name.str ∧ a.addr = b.addr ∧ a.bpos = b.bpos ∧
        a.blen = b.blen ∧ a.lang = b.lang ∧ a.source = b.source ∧
        a.type_ = b.type_)) ∧
    Symbol.beq a.owned a = true ∧
    a.owned.owned = a.owned := by
  refine ⟨?_, ?_, rfl⟩
  · simp [Symbol.beq, and_assoc]
  · simp [Symbol.beq, Symbol.owned, Cow.intoOwned_eq_str, Cow.str]

end CargoDisasm
